import Mathlib

/-
Verification of the panel resize handler web component.

Embedding choices:
- JS numbers (widths, pointer coordinates, percentages) are modelled as Rat,
  since the source performs exact-looking arithmetic on small quantities.
- Null values are modelled as Option; a JS operation that can throw is
  modelled with Except, every other handler is a total function.
- A panel (the sibling target element) carries its rendered layout width
  (what getBoundingClientRect().width returns), its display style and its
  flex-basis style; the handlers read the rendered width and write the
  styles, exactly as the source does.
- Closure identity (needed for addEventListener/removeEventListener
  reference equality) is modelled by a counter handing out fresh ids:
  each call of the throttle wrapper factory returns a fresh id.
- The setTimeout used by throttle is modelled by a timestamped state
  machine: the flag clears at the recorded deadline, before an event
  arriving at or after that deadline is processed.

Two source variants exist and are modelled in separate namespaces:
- namespace P0: the variant with initializeFromAttributes, getTargetElement
  and a guard in handleMouseDown (source file part_000).
- namespace RH: the live-reactive variant with attributeChangedCallback
  (source file frontend/src/handlers/resizeHandlers.ts).
-/

/-- Resize direction attribute value. -/
inductive Direction where
  | left
  | right
deriving DecidableEq, Repr

/-- The sibling target element: rendered layout width plus the two style
properties the component mutates. -/
structure Panel where
  display : String
  flexBasis : Option Rat
  renderedWidth : Rat
deriving DecidableEq, Repr

/-- DOM adjacency around the handle: previousElementSibling and
nextElementSibling, each possibly absent. -/
structure Dom where
  prevSibling : Option Panel
  nextSibling : Option Panel
deriving DecidableEq, Repr

/-- Per-instance mutable handler state. The docListeners field models
whether the document-level mousemove and mouseup listeners are attached. -/
structure HandlerState where
  isDragging : Bool
  initialX : Rat
  currentSiblingWidth : Rat
  isPanelCollapsed : Bool
  docListeners : Bool
deriving DecidableEq, Repr

/-- Result of a mousemove handler: updated state, updated DOM, and the
flex-basis value written to the target, if any. -/
structure MoveOut where
  st : HandlerState
  dom : Dom
  write : Option Rat
deriving DecidableEq, Repr

/-- Result of the window resize handler: updated DOM and the flex-basis
value written, if any. -/
structure AdjustOut where
  dom : Dom
  write : Option Rat
deriving DecidableEq, Repr

/-- Exact rational sum. The builtin Rat field operations are marked
irreducible, so the embedding uses these reducible equivalents (each
proved equal to the builtin operation below) to keep concrete runs
kernel-evaluable. -/
def ratAdd (a b : Rat) : Rat :=
  mkRat (a.num * b.den + b.num * a.den) (a.den * b.den)

/-- Exact rational difference, reducible equivalent of Rat subtraction. -/
def ratSub (a b : Rat) : Rat :=
  mkRat (a.num * b.den - b.num * a.den) (a.den * b.den)

/-- Exact rational product, reducible equivalent of Rat multiplication. -/
def ratMul (a b : Rat) : Rat := mkRat (a.num * b.num) (a.den * b.den)

/-- Exact rational quotient, reducible equivalent of the builtin Rat
division (proved equal below). -/
def ratDiv (a b : Rat) : Rat :=
  Rat.divInt (a.num * (b.den : Int)) ((a.den : Int) * b.num)

/-- The reducible sum agrees with the Rat field addition. -/
lemma ratAdd_eq_add (a b : Rat) : ratAdd a b = a + b := by
  have ha : ((a.den : Rat)) ≠ 0 := Nat.cast_ne_zero.mpr a.den_nz
  have hb : ((b.den : Rat)) ≠ 0 := Nat.cast_ne_zero.mpr b.den_nz
  rw [ratAdd, Rat.mkRat_eq_div]
  push_cast
  conv_rhs => rw [← Rat.num_div_den a, ← Rat.num_div_den b]
  field_simp

/-- The reducible difference agrees with the Rat field subtraction. -/
lemma ratSub_eq_sub (a b : Rat) : ratSub a b = a - b := by
  have ha : ((a.den : Rat)) ≠ 0 := Nat.cast_ne_zero.mpr a.den_nz
  have hb : ((b.den : Rat)) ≠ 0 := Nat.cast_ne_zero.mpr b.den_nz
  rw [ratSub, Rat.mkRat_eq_div]
  push_cast
  conv_rhs => rw [← Rat.num_div_den a, ← Rat.num_div_den b]
  field_simp
  ring

/-- The reducible product agrees with the Rat field multiplication. -/
lemma ratMul_eq_mul (a b : Rat) : ratMul a b = a * b := by
  rw [ratMul, Rat.mkRat_eq_div]
  push_cast
  rw [← div_mul_div_comm, Rat.num_div_den, Rat.num_div_den]

/-- The reducible quotient agrees with the Rat field division. -/
lemma ratDiv_eq_div (a b : Rat) : ratDiv a b = a / b := by
  rw [ratDiv, Rat.divInt_eq_div]
  push_cast
  rw [← div_mul_div_comm, Rat.num_div_den, div_eq_mul_inv a b, Rat.inv_def',
    Rat.divInt_eq_div]
  norm_cast

/-- Model of Math.max on two numbers. -/
def jsMax (a b : Rat) : Rat := if a ≤ b then b else a

/-- Model of Math.min on two numbers. -/
def jsMin (a b : Rat) : Rat := if a ≤ b then a else b

/-- Math.max is an upper bound of its first argument. -/
lemma le_jsMax_left (a b : Rat) : a ≤ jsMax a b := by
  rw [jsMax]; split
  · assumption
  · exact le_refl a

/-- Math.max of two lower bounds is a lower bound. -/
lemma jsMax_le {a b c : Rat} (h1 : a ≤ c) (h2 : b ≤ c) : jsMax a b ≤ c := by
  rw [jsMax]; split <;> assumption

/-- Math.min is at most its second argument. -/
lemma jsMin_le_right (a b : Rat) : jsMin a b ≤ b := by
  rw [jsMin]; split
  · assumption
  · exact le_refl b

/-- Numeric value of a decimal digit character. -/
def digitVal (c : Char) : Nat := c.toNat - Char.toNat '0'

/-- Value of a list of decimal digit characters. -/
def decDigitsVal (l : List Char) : Nat :=
  List.foldl (fun a c => a * 10 + digitVal c) 0 l

/-- Hexadecimal digit test, as used by the JS parseInt 0x prefix path. -/
def isHexDigitJs (c : Char) : Bool :=
  c.isDigit || ('a' ≤ c && c ≤ 'f') || ('A' ≤ c && c ≤ 'F')

/-- Numeric value of one hexadecimal digit character. -/
def hexDigitVal (c : Char) : Nat :=
  if c.isDigit then c.toNat - Char.toNat '0'
  else if 'a' ≤ c ∧ c ≤ 'f' then c.toNat - Char.toNat 'a' + 10
  else c.toNat - Char.toNat 'A' + 10

/-- Decimal tail of JS parseInt: take leading digits, NaN (none) if there
are no digits at all. -/
def parseDecFrom (sign : Int) (cs : List Char) : Option Int :=
  let ds := cs.takeWhile Char.isDigit
  if ds = [] then none else some (sign * (decDigitsVal ds : Int))

/-- Model of the JS builtin parseInt applied to a string with no radix
argument: skip leading whitespace, optional sign, then either a 0x or 0X
prefixed hexadecimal literal or a run of decimal digits; trailing
characters are ignored; NaN is modelled as none. -/
def parseIntJS (s : String) : Option Int :=
  let cs := s.data.dropWhile Char.isWhitespace
  let sign : Int := match cs with
    | '-' :: _ => -1
    | _ => 1
  let cs2 := match cs with
    | '-' :: r => r
    | '+' :: r => r
    | _ => cs
  match cs2 with
  | '0' :: x :: r =>
    if x = 'x' ∨ x = 'X' then
      let hs := r.takeWhile isHexDigitJs
      if hs = [] then none
      else some (sign * (List.foldl (fun a c => a * 16 + hexDigitVal c) 0 hs : Int))
    else parseDecFrom sign cs2
  | _ => parseDecFrom sign cs2

/-- The candidate width of a drag move: base width plus the pointer delta
for a left handle, base width minus the pointer delta for a right one. -/
def candidateWidth (d : Direction) (base originX pointerX : Rat) : Rat :=
  match d with
  | Direction.left => ratAdd base (ratSub pointerX originX)
  | Direction.right => ratSub base (ratSub pointerX originX)

namespace P0

/-- Configuration fields of the part_000 variant, with the defaults the
class initializers give them. -/
structure Config where
  minWidth : Rat
  maxWidthPercent : Rat
  defaultWidth : Rat
  resize : Option Direction
  isCollapsable : Bool
deriving DecidableEq, Repr

/-- Attribute values present on the element at mount time. The collapsable
field is the result of hasAttribute. -/
structure Attrs where
  minWidthAttr : Option String
  maxWidthPercentAttr : Option String
  initialWidthAttr : Option String
  resizeAttr : Option String
  collapsableAttr : Bool
deriving DecidableEq, Repr

/-- Model of the JS falsy-coalescing idiom parseInt(v) or-else d: NaN and
0 are both falsy, so both select the default. -/
def jsOrRat (v : Option Int) (d : Rat) : Rat :=
  match v with
  | none => d
  | some n => if n = 0 then d else (n : Rat)

/-- Model of initializeFromAttributes in part_000: each present attribute
is parsed and falsy-coalesced onto the default; the resize attribute is
accepted only as left or right, any other present value is reported and
leaves resize null; collapsable is attribute presence. -/
def initFromAttributes (a : Attrs) : Config :=
  let minWidth : Rat := match a.minWidthAttr with
    | none => 150
    | some s => jsOrRat (parseIntJS s) 150
  let maxWidthPercent : Rat := match a.maxWidthPercentAttr with
    | none => 30
    | some s => jsOrRat (parseIntJS s) 30
  let defaultWidth : Rat := match a.initialWidthAttr with
    | none => 150
    | some s => jsOrRat (parseIntJS s) minWidth
  let resize : Option Direction := match a.resizeAttr with
    | some "left" => some Direction.left
    | some "right" => some Direction.right
    | _ => none
  { minWidth := minWidth
    maxWidthPercent := maxWidthPercent
    defaultWidth := defaultWidth
    resize := resize
    isCollapsable := a.collapsableAttr }

/-- Model of getTargetElement: the previous sibling for left, the next
sibling for right, nothing when resize is null or the sibling is absent. -/
def getTargetElement (cfg : Config) (dom : Dom) : Option Panel :=
  match cfg.resize with
  | some Direction.left => dom.prevSibling
  | some Direction.right => dom.nextSibling
  | none => none

/-- Writing the (possibly updated) target back into the DOM on the side
getTargetElement resolved it from. -/
def setTargetElement (cfg : Config) (dom : Dom) (p : Panel) : Dom :=
  match cfg.resize with
  | some Direction.left => { dom with prevSibling := some p }
  | some Direction.right => { dom with nextSibling := some p }
  | none => dom

/-- The maximum width computed by the handlers:
window.innerWidth * (maxWidthPercent / 100). -/
def maxWidthOf (cfg : Config) (innerWidth : Rat) : Rat :=
  ratMul innerWidth (ratDiv cfg.maxWidthPercent 100)

/-- The clamp applied on every drag move:
Math.max(minWidth, Math.min(newWidth, maxWidth)). -/
def clampWidth (cfg : Config) (innerWidth newWidth : Rat) : Rat :=
  jsMax cfg.minWidth (jsMin newWidth (maxWidthOf cfg innerWidth))

/-- The collapsable block of handleMouseMove, lines 192 to 201 of
part_000: two sequential if statements, the first hides the target and
sets the flag when the candidate is at most minWidth, the second re-shows
it and clears the flag when the flag is set and the candidate exceeds
50. -/
def collapsePolicy (cfg : Config) (newWidth : Rat) (t : Panel)
    (collapsed : Bool) : Panel × Bool :=
  if cfg.isCollapsable then
    let r1 : Panel × Bool :=
      if newWidth ≤ cfg.minWidth then ({ t with display := "none" }, true)
      else (t, collapsed)
    if r1.2 ∧ 50 < newWidth then ({ r1.1 with display := "block" }, false)
    else r1
  else (t, collapsed)

/-- Model of handleMouseDown in part_000: resolve the target first and
return unchanged when none resolves; otherwise enter the dragging state,
record the origin X and the rendered base width, and attach the document
listeners. Style writes (hover color, cursor) have no bearing on any claim
and are omitted. -/
def handleMouseDown (cfg : Config) (dom : Dom) (st : HandlerState)
    (clientX : Rat) : HandlerState :=
  match getTargetElement cfg dom with
  | none => st
  | some p =>
    { st with
      isDragging := true
      initialX := clientX
      currentSiblingWidth := p.renderedWidth
      docListeners := true }

/-- Model of handleMouseMove in part_000: bail out when not dragging or
when no target resolves; otherwise compute the candidate width with the
direction-dependent sign, run the collapsable block, clamp, and write the
clamped width to the flex-basis style of the target. -/
def handleMouseMove (cfg : Config) (innerWidth : Rat) (dom : Dom)
    (st : HandlerState) (clientX : Rat) : MoveOut :=
  if st.isDragging = false then ⟨st, dom, none⟩
  else
    match getTargetElement cfg dom with
    | none => ⟨st, dom, none⟩
    | some t =>
      let newWidth : Rat :=
        if cfg.resize = some Direction.left then
          ratAdd st.currentSiblingWidth (ratSub clientX st.initialX)
        else
          ratSub st.currentSiblingWidth (ratSub clientX st.initialX)
      let r := collapsePolicy cfg newWidth t st.isPanelCollapsed
      let clampedWidth := clampWidth cfg innerWidth newWidth
      ⟨{ st with isPanelCollapsed := r.2 },
       setTargetElement cfg dom { r.1 with flexBasis := some clampedWidth },
       some clampedWidth⟩

/-- Model of handleMouseUp in part_000 (identical in the RH variant):
clear the dragging flag and detach the document listeners. The style
writes (transparent background, default cursor) are omitted as above. -/
def handleMouseUp (st : HandlerState) : HandlerState :=
  { st with isDragging := false, docListeners := false }

/-- Model of adjustPanelWidth in part_000: when a target resolves and its
current rendered width exceeds the maximum while the maximum exceeds
minWidth, write the maximum to flex-basis; otherwise do nothing. -/
def adjustPanelWidth (cfg : Config) (innerWidth : Rat) (dom : Dom) :
    AdjustOut :=
  let maxWidth := maxWidthOf cfg innerWidth
  match getTargetElement cfg dom with
  | none => ⟨dom, none⟩
  | some t =>
    if maxWidth < t.renderedWidth ∧ cfg.minWidth < maxWidth then
      ⟨setTargetElement cfg dom { t with flexBasis := some maxWidth },
       some maxWidth⟩
    else ⟨dom, none⟩

/-- Window-level listener registry with a fresh-closure counter: every
closure the program creates (in particular every throttle wrapper) gets
the next id, so two separately created wrappers are never equal. -/
structure WindowState where
  resizeListeners : List Nat
  nextClosureId : Nat
deriving DecidableEq, Repr

/-- A call of the throttle wrapper factory: returns a fresh closure id. -/
def throttleClosure (w : WindowState) : Nat × WindowState :=
  (w.nextClosureId, { w with nextClosureId := w.nextClosureId + 1 })

/-- window.addEventListener for the resize event. -/
def windowAddEventListener (w : WindowState) (id : Nat) : WindowState :=
  { w with resizeListeners := w.resizeListeners ++ [id] }

/-- window.removeEventListener for the resize event: removes the listener
with the given identity if registered, otherwise a no-op. -/
def windowRemoveEventListener (w : WindowState) (id : Nat) : WindowState :=
  { w with resizeListeners := w.resizeListeners.filter (fun j => j ≠ id) }

/-- The resize-listener registration performed by connectedCallback, in
both variants: window.addEventListener of a freshly created throttle
wrapper around adjustPanelWidth. -/
def connectedCallback (w : WindowState) : WindowState :=
  let r := throttleClosure w
  windowAddEventListener r.2 r.1

/-- The resize-listener removal attempted by disconnectedCallback, in both
variants: window.removeEventListener is handed a second, freshly created
throttle wrapper, not the one that was registered. -/
def disconnectedCallback (w : WindowState) : WindowState :=
  let r := throttleClosure w
  windowRemoveEventListener r.2 r.1

end P0

/-- State of one throttle wrapper: the inThrottle flag and the time at
which the pending setTimeout callback will clear it. -/
structure ThrottleState where
  inThrottle : Bool
  clearAt : Nat
deriving DecidableEq, Repr

/-- A fresh throttle wrapper: the inThrottle variable is still unset,
hence falsy. -/
def initThrottle : ThrottleState := ⟨false, 0⟩

/-- Processing one call of the throttle wrapper at time t: a due
setTimeout callback fires first and clears the flag; then the wrapped
function runs exactly when the flag is clear, setting the flag and
scheduling its reset at t + limit. The Bool records whether the wrapped
function ran (synchronously, within this step). -/
def throttleStep (limit : Nat) (s : ThrottleState) (t : Nat) :
    ThrottleState × Bool :=
  let s1 := if s.inThrottle ∧ s.clearAt ≤ t then { s with inThrottle := false }
            else s
  if s1.inThrottle then (s1, false)
  else ({ inThrottle := true, clearAt := t + limit }, true)

/-- Running the throttle wrapper over a time-ordered list of call times,
collecting the times at which the wrapped function actually ran. -/
def throttleExec (limit : Nat) (s : ThrottleState) : List Nat → List Nat
  | [] => []
  | t :: ts =>
    let r := throttleStep limit s t
    if r.2 then t :: throttleExec limit r.1 ts
    else throttleExec limit r.1 ts

namespace RH

/-- Configuration fields of the resizeHandlers.ts variant, with their
initializers. They are rebound live by attributeChangedCallback. -/
structure RHConfig where
  MIN_WIDTH : Int
  MAX_WIDTH_PERCENT : Int
  DEFAULT_WIDTH : Int
  isCollapsable : Bool
deriving DecidableEq, Repr

/-- Falsy-coalescing parseInt result onto a default, over Int. -/
def jsOrInt (v : Option Int) (d : Int) : Int :=
  match v with
  | none => d
  | some n => if n = 0 then d else n

/-- parseInt applied to a possibly null attribute value: JS coerces null
to the string null, which has no digits, hence NaN. -/
def parseIntAttr (v : Option String) : Option Int :=
  parseIntJS (match v with | none => "null" | some s => s)

/-- Model of attributeChangedCallback in resizeHandlers.ts. Every branch
returns normally except the collapsable branch, which calls toLowerCase on
the new value; when the attribute was removed the new value is null and
that call throws a TypeError, modelled as the error case. -/
def attributeChangedCallback (cfg : RHConfig) (nm : String)
    (newValue : Option String) : Except String RHConfig :=
  if nm = "min-width" then
    .ok { cfg with MIN_WIDTH := jsOrInt (parseIntAttr newValue) 150 }
  else if nm = "max-width-percent" then
    .ok { cfg with MAX_WIDTH_PERCENT := jsOrInt (parseIntAttr newValue) 30 }
  else if nm = "default-width" then
    .ok { cfg with DEFAULT_WIDTH := jsOrInt (parseIntAttr newValue) cfg.MIN_WIDTH }
  else if nm = "collapsable" then
    match newValue with
    | none => .error "TypeError: Cannot read properties of null (reading toLowerCase)"
    | some s => .ok { cfg with isCollapsable := if s.toLower = "false" then false else true }
  else .ok cfg

/-- Whether an Except value is the normal-return case. -/
def exceptOk (e : Except String RHConfig) : Bool :=
  match e with
  | .ok _ => true
  | .error _ => false

/-- Model of handleMouseDown in resizeHandlers.ts: unlike the part_000
variant there is no early return, so the dragging flag, the origin X and
the document listeners are established unconditionally; only the capture
of the base width is guarded by target resolution. -/
def handleMouseDown (resizeAttr : Option String) (dom : Dom)
    (st : HandlerState) (clientX : Rat) : HandlerState :=
  let st1 := { st with isDragging := true, initialX := clientX, docListeners := true }
  if h : resizeAttr = some "left" ∧ dom.prevSibling.isSome then
    { st1 with currentSiblingWidth := (dom.prevSibling.get h.2).renderedWidth }
  else if h : resizeAttr = some "right" ∧ dom.nextSibling.isSome then
    { st1 with currentSiblingWidth := (dom.nextSibling.get h.2).renderedWidth }
  else st1

/-- The collapsable block of handleMouseMove in resizeHandlers.ts, the
same two sequential if statements as the part_000 variant. -/
def collapsePolicy (cfg : RHConfig) (newWidth : Rat) (t : Panel)
    (collapsed : Bool) : Panel × Bool :=
  if cfg.isCollapsable then
    let r1 : Panel × Bool :=
      if newWidth ≤ (cfg.MIN_WIDTH : Rat) then ({ t with display := "none" }, true)
      else (t, collapsed)
    if r1.2 ∧ 50 < newWidth then ({ r1.1 with display := "block" }, false)
    else r1
  else (t, collapsed)

/-- The tail of handleMouseMove in resizeHandlers.ts once a target and a
candidate width are determined: collapsable block, clamp, flex-basis
write on the resolved side. -/
def moveApply (cfg : RHConfig) (innerWidth : Rat) (dom : Dom)
    (st : HandlerState) (t : Panel) (side : Direction) (newWidth : Rat) :
    MoveOut :=
  let r := collapsePolicy cfg newWidth t st.isPanelCollapsed
  let maxWidth := ratMul innerWidth (ratDiv (cfg.MAX_WIDTH_PERCENT : Rat) 100)
  let clampedWidth := jsMax (cfg.MIN_WIDTH : Rat) (jsMin newWidth maxWidth)
  ⟨{ st with isPanelCollapsed := r.2 },
   (match side with
    | Direction.left =>
      { dom with prevSibling := some { r.1 with flexBasis := some clampedWidth } }
    | Direction.right =>
      { dom with nextSibling := some { r.1 with flexBasis := some clampedWidth } }),
   some clampedWidth⟩

/-- Model of handleMouseMove in resizeHandlers.ts: bail out when not
dragging; resolve the target and the sign from the live resize attribute;
when neither side resolves, report the invalid attribute and return with
nothing changed. -/
def handleMouseMove (cfg : RHConfig) (resizeAttr : Option String)
    (innerWidth : Rat) (dom : Dom) (st : HandlerState) (clientX : Rat) :
    MoveOut :=
  if st.isDragging = false then ⟨st, dom, none⟩
  else if h : resizeAttr = some "left" ∧ dom.prevSibling.isSome then
    moveApply cfg innerWidth dom st (dom.prevSibling.get h.2) Direction.left
      (ratAdd st.currentSiblingWidth (ratSub clientX st.initialX))
  else if h : resizeAttr = some "right" ∧ dom.nextSibling.isSome then
    moveApply cfg innerWidth dom st (dom.nextSibling.get h.2) Direction.right
      (ratSub st.currentSiblingWidth (ratSub clientX st.initialX))
  else ⟨st, dom, none⟩

end RH

/-- The lower clamp bound holds unconditionally. -/
lemma clampWidth_lower (cfg : P0.Config) (iw nw : Rat) :
    cfg.minWidth ≤ P0.clampWidth cfg iw nw :=
  le_jsMax_left _ _

/-- The upper clamp bound holds whenever the clamp range is
non-degenerate. -/
lemma clampWidth_upper (cfg : P0.Config) (iw nw : Rat)
    (h : cfg.minWidth ≤ P0.maxWidthOf cfg iw) :
    P0.clampWidth cfg iw nw ≤ P0.maxWidthOf cfg iw :=
  jsMax_le h (jsMin_le_right _ _)

/-- What handleMouseMove writes: the clamped candidate width exactly when
dragging with a resolved target, nothing otherwise. -/
lemma handleMouseMove_write (cfg : P0.Config) (iw : Rat) (dom : Dom)
    (st : HandlerState) (x : Rat) :
    (P0.handleMouseMove cfg iw dom st x).write =
      if st.isDragging = true ∧ (P0.getTargetElement cfg dom).isSome then
        some (P0.clampWidth cfg iw
          (if cfg.resize = some Direction.left then
            ratAdd st.currentSiblingWidth (ratSub x st.initialX)
          else ratSub st.currentSiblingWidth (ratSub x st.initialX)))
      else none := by
  cases hd : st.isDragging <;>
    cases ht : P0.getTargetElement cfg dom <;>
      simp [P0.handleMouseMove, hd, ht]

/-- C1 (counterexample): the invariant as claimed fails. First input: a
valid configuration (minWidth 150, maxWidthPercent 30) with viewport width
1000 and target rendered width 100; the viewport reactor performs no write
and leaves the DOM unchanged, so after the event the width 100 violates
the claimed lower bound 150. Second input: the same configuration with
viewport width 100, so the allowed maximum is 30; a drag move writes the
clamped width 150, violating the claimed upper bound. -/
theorem c1_clamp_cex :
    ((P0.adjustPanelWidth ⟨150, 30, 150, some Direction.left, false⟩ 1000
        ⟨some ⟨"block", some 100, 100⟩, none⟩).write = none ∧
      (P0.adjustPanelWidth ⟨150, 30, 150, some Direction.left, false⟩ 1000
        ⟨some ⟨"block", some 100, 100⟩, none⟩).dom =
          ⟨some ⟨"block", some 100, 100⟩, none⟩ ∧
      ¬ ((150 : Rat) ≤ 100)) ∧
    ((P0.handleMouseMove ⟨150, 30, 150, some Direction.left, false⟩ 100
        ⟨some ⟨"block", none, 200⟩, none⟩ ⟨true, 0, 200, false, true⟩ 0).write =
          some 150 ∧
      ¬ ((150 : Rat) ≤
          P0.maxWidthOf ⟨150, 30, 150, some Direction.left, false⟩ 100)) := by
  decide

/-- C1 (amended): every width a drag move writes is at least minWidth, and
is also at most viewportWidth times maxWidthPercent over 100 whenever that
maximum is at least minWidth; the viewport reactor writes only a width
strictly between minWidth and the maximum inclusive, namely the maximum
itself, and otherwise leaves the DOM unchanged. -/
theorem c1_clamp_amended :
    (∀ (cfg : P0.Config) (iw : Rat) (dom : Dom) (st : HandlerState) (x w : Rat),
      (P0.handleMouseMove cfg iw dom st x).write = some w →
        cfg.minWidth ≤ w ∧
        (cfg.minWidth ≤ P0.maxWidthOf cfg iw → w ≤ P0.maxWidthOf cfg iw)) ∧
    (∀ (cfg : P0.Config) (iw : Rat) (dom : Dom) (w : Rat),
      (P0.adjustPanelWidth cfg iw dom).write = some w →
        cfg.minWidth < w ∧ w = P0.maxWidthOf cfg iw) ∧
    (∀ (cfg : P0.Config) (iw : Rat) (dom : Dom),
      (P0.adjustPanelWidth cfg iw dom).write = none →
        (P0.adjustPanelWidth cfg iw dom).dom = dom) := by
  refine ⟨?_, ?_, ?_⟩
  · intro cfg iw dom st x w h
    rw [handleMouseMove_write] at h
    by_cases hc : st.isDragging = true ∧ (P0.getTargetElement cfg dom).isSome
    · rw [if_pos hc] at h
      obtain rfl : P0.clampWidth cfg iw _ = w := Option.some.inj h
      exact ⟨clampWidth_lower cfg iw _, fun hmm => clampWidth_upper cfg iw _ hmm⟩
    · rw [if_neg hc] at h
      exact absurd h (by simp)
  · intro cfg iw dom w h
    cases ht : P0.getTargetElement cfg dom with
    | none => simp [P0.adjustPanelWidth, ht] at h
    | some t =>
      by_cases hcond : P0.maxWidthOf cfg iw < t.renderedWidth ∧
          cfg.minWidth < P0.maxWidthOf cfg iw
      · have hw : w = P0.maxWidthOf cfg iw := by
          simp [P0.adjustPanelWidth, ht, hcond] at h
          exact h.symm
        exact ⟨hw ▸ hcond.2, hw⟩
      · simp [P0.adjustPanelWidth, ht, hcond] at h
  · intro cfg iw dom h
    cases ht : P0.getTargetElement cfg dom with
    | none => simp [P0.adjustPanelWidth, ht]
    | some t =>
      by_cases hcond : P0.maxWidthOf cfg iw < t.renderedWidth ∧
          cfg.minWidth < P0.maxWidthOf cfg iw
      · simp [P0.adjustPanelWidth, ht, hcond] at h
      · simp [P0.adjustPanelWidth, ht, hcond]

/-- C1 (witness): the amended bounds at a concrete drag move that writes
width 200 under viewport width 1000. -/
theorem c1_clamp_witness :
    (⟨150, 30, 150, some Direction.left, false⟩ : P0.Config).minWidth ≤ (200 : Rat) ∧
    ((⟨150, 30, 150, some Direction.left, false⟩ : P0.Config).minWidth ≤
        P0.maxWidthOf ⟨150, 30, 150, some Direction.left, false⟩ 1000 →
      (200 : Rat) ≤ P0.maxWidthOf ⟨150, 30, 150, some Direction.left, false⟩ 1000) :=
  c1_clamp_amended.1 ⟨150, 30, 150, some Direction.left, false⟩ 1000
    ⟨some ⟨"block", none, 200⟩, none⟩ ⟨true, 0, 200, false, true⟩ 0 200 (by decide)

/-- C2 (counterexample): collapsible, minWidth 150, panel already
collapsed and hidden, drag move with candidate width 60. The claim says
the target stays hidden; the code hides it in the first branch and then
immediately re-shows it in the second branch because 60 exceeds 50, ending
with the target shown and the collapsed flag cleared. -/
theorem c2_collapse_cex :
    (P0.handleMouseMove ⟨150, 30, 150, some Direction.left, true⟩ 1000
        ⟨some ⟨"none", none, 60⟩, none⟩ ⟨true, 0, 60, true, true⟩ 0).dom.prevSibling =
      some ⟨"block", some 150, 60⟩ ∧
    (P0.handleMouseMove ⟨150, 30, 150, some Direction.left, true⟩ 1000
        ⟨some ⟨"none", none, 60⟩, none⟩ ⟨true, 0, 60, true, true⟩ 0).st.isPanelCollapsed =
      false := by
  decide

/-- C2 (amended): when collapsible, the two collapse branches run in
sequence within one move, so the net effect is: the target ends shown
whenever the candidate is above 50 and either at most minWidth or the
panel was already collapsed; it ends hidden when the candidate is at most
minWidth and at most 50; otherwise its display is unchanged; the final
collapsed flag holds exactly when the candidate is at most 50 and either
at most minWidth or the flag was already set. Concretely, with minWidth
150 and the panel already collapsed, candidate 80 restores visibility and
clears the flag, and candidate 40 keeps the target hidden with the flag
set. -/
theorem c2_collapse_amended :
    (∀ (cfg : P0.Config) (nw : Rat) (t : Panel) (c : Bool),
      cfg.isCollapsable = true →
        P0.collapsePolicy cfg nw t c =
          ((if (nw ≤ cfg.minWidth ∨ c = true) ∧ 50 < nw then
              { t with display := "block" }
            else if nw ≤ cfg.minWidth then { t with display := "none" }
            else t),
           ((decide (nw ≤ cfg.minWidth) || c) && decide (nw ≤ 50)))) ∧
    ((P0.handleMouseMove ⟨150, 30, 150, some Direction.left, true⟩ 1000
        ⟨some ⟨"none", none, 60⟩, none⟩ ⟨true, 0, 60, true, true⟩ 20).dom.prevSibling =
      some ⟨"block", some 150, 60⟩ ∧
     (P0.handleMouseMove ⟨150, 30, 150, some Direction.left, true⟩ 1000
        ⟨some ⟨"none", none, 60⟩, none⟩ ⟨true, 0, 60, true, true⟩ 20).st.isPanelCollapsed =
      false) ∧
    ((P0.handleMouseMove ⟨150, 30, 150, some Direction.left, true⟩ 1000
        ⟨some ⟨"none", none, 60⟩, none⟩ ⟨true, 0, 60, true, true⟩ (-20)).dom.prevSibling =
      some ⟨"none", some 150, 60⟩ ∧
     (P0.handleMouseMove ⟨150, 30, 150, some Direction.left, true⟩ 1000
        ⟨some ⟨"none", none, 60⟩, none⟩ ⟨true, 0, 60, true, true⟩ (-20)).st.isPanelCollapsed =
      true) := by
  refine ⟨?_, by decide, by decide⟩
  intro cfg nw t c hc
  rw [P0.collapsePolicy, if_pos hc]
  rcases lt_or_le (50 : Rat) nw with h2 | h2 <;>
    cases c <;>
      by_cases h1 : nw ≤ cfg.minWidth <;>
        first
          | simp [h1, h2, not_le.mpr h2]
          | simp [h1, h2, not_lt.mpr h2]

/-- C2 (witness): the amended characterization evaluated at candidate
width 60 from a collapsed state: the target ends shown with the flag
cleared. -/
theorem c2_collapse_witness :
    P0.collapsePolicy ⟨150, 30, 150, some Direction.left, true⟩ 60
      ⟨"none", none, 60⟩ true = (⟨"block", none, 60⟩, false) := by
  rw [c2_collapse_amended.1 ⟨150, 30, 150, some Direction.left, true⟩ 60
    ⟨"none", none, 60⟩ true rfl]
  decide

/-- C3 (code bug): after a mount followed by an unmount, the resize
listener registered at mount is still registered, because the removal was
handed a second, freshly created throttle wrapper that is not
reference-equal to the registered one. The claim (and the stated intent)
is that no listener remains. -/
theorem c3_listener_leak :
    (P0.disconnectedCallback (P0.connectedCallback ⟨[], 0⟩)).resizeListeners = [0] ∧
    (P0.disconnectedCallback (P0.connectedCallback ⟨[], 0⟩)).resizeListeners ≠ [] := by
  decide

/-- C4 (confirmed): the throttle gate with a fresh state executes the
first call immediately; a call arriving while the window is open is
dropped with no effect at all on the remaining behavior; hence of two
calls less than 100 apart from a fresh state, only the first executes and
the second vanishes from the run. -/
theorem c4_throttle_gate :
    (∀ (t : Nat) (ts : List Nat),
      throttleExec 100 initThrottle (t :: ts) =
        t :: throttleExec 100 ⟨true, t + 100⟩ ts) ∧
    (∀ (c t : Nat) (ts : List Nat), t < c →
      throttleExec 100 ⟨true, c⟩ (t :: ts) = throttleExec 100 ⟨true, c⟩ ts) ∧
    (∀ (t1 t2 : Nat) (ts : List Nat), t2 < t1 + 100 →
      throttleExec 100 initThrottle (t1 :: t2 :: ts) =
        t1 :: throttleExec 100 ⟨true, t1 + 100⟩ ts) := by
  have hfirst : ∀ (t : Nat) (ts : List Nat),
      throttleExec 100 initThrottle (t :: ts) =
        t :: throttleExec 100 ⟨true, t + 100⟩ ts := by
    intro t ts
    simp [throttleExec, throttleStep, initThrottle]
  have hdrop : ∀ (c t : Nat) (ts : List Nat), t < c →
      throttleExec 100 ⟨true, c⟩ (t :: ts) = throttleExec 100 ⟨true, c⟩ ts := by
    intro c t ts h
    simp [throttleExec, throttleStep, not_le.mpr h]
  exact ⟨hfirst, hdrop, fun t1 t2 ts h => by rw [hfirst, hdrop _ _ _ h]⟩

/-- C4 (witness): two calls at times 0 and 50 from a fresh gate: the run
reduces to the first call alone. -/
theorem c4_throttle_witness :
    throttleExec 100 initThrottle (0 :: 50 :: []) =
      0 :: throttleExec 100 ⟨true, 0 + 100⟩ [] :=
  c4_throttle_gate.2.2 0 50 [] (by decide)

/-- C5 (confirmed): whenever a drag move writes, the written value is the
clamp of the candidate width, which is base width plus the pointer delta
for direction left and base width minus the pointer delta for direction
right; in particular with base 300 and delta minus 50 the candidate is 350
for right and 250 for left. -/
theorem c5_candidate_width :
    (∀ (cfg : P0.Config) (iw : Rat) (dom : Dom) (st : HandlerState) (x : Rat)
        (d : Direction),
      st.isDragging = true → cfg.resize = some d →
      (P0.getTargetElement cfg dom).isSome = true →
        (P0.handleMouseMove cfg iw dom st x).write =
          some (P0.clampWidth cfg iw
            (candidateWidth d st.currentSiblingWidth st.initialX x))) ∧
    candidateWidth Direction.right 300 0 (-50) = 350 ∧
    candidateWidth Direction.left 300 0 (-50) = 250 := by
  refine ⟨?_, by decide, by decide⟩
  intro cfg iw dom st x d hd hr hsome
  rw [handleMouseMove_write, if_pos ⟨hd, hsome⟩]
  cases d <;> simp [hr, candidateWidth]

/-- C5 (witness): a concrete right-direction move with base width 300 and
pointer delta minus 50 writes the clamp of candidate 350. -/
theorem c5_candidate_witness :
    (P0.handleMouseMove ⟨150, 30, 150, some Direction.right, false⟩ 1000
        ⟨none, some ⟨"block", none, 300⟩⟩ ⟨true, 0, 300, false, true⟩ (-50)).write =
      some (P0.clampWidth ⟨150, 30, 150, some Direction.right, false⟩ 1000
        (candidateWidth Direction.right 300 0 (-50))) :=
  c5_candidate_width.1 ⟨150, 30, 150, some Direction.right, false⟩ 1000
    ⟨none, some ⟨"block", none, 300⟩⟩ ⟨true, 0, 300, false, true⟩ (-50)
    Direction.right rfl rfl rfl

/-- C6 (counterexample): in the resizeHandlers.ts variant, a press with
resize set to left but no previous sibling still sets the dragging flag,
contradicting the claim that the handle stays idle whenever no target
resolves. -/
theorem c6_mousedown_cex :
    (RH.handleMouseDown (some "left") ⟨none, none⟩
      ⟨false, 0, 0, false, false⟩ 10).isDragging = true := by
  decide

/-- C6 (amended): in the part_000 variant a press leaves the state
entirely unchanged when no target resolves, and starts a drag session
exactly when one does; in the resizeHandlers.ts variant a press with no
resolvable target still sets the dragging flag, records the origin X and
attaches the document listeners, skipping only the base width capture. -/
theorem c6_mousedown_amended :
    (∀ (cfg : P0.Config) (dom : Dom) (st : HandlerState) (x : Rat),
      P0.getTargetElement cfg dom = none → P0.handleMouseDown cfg dom st x = st) ∧
    (∀ (cfg : P0.Config) (dom : Dom) (st : HandlerState) (x : Rat) (p : Panel),
      P0.getTargetElement cfg dom = some p →
        P0.handleMouseDown cfg dom st x =
          { st with
            isDragging := true
            initialX := x
            currentSiblingWidth := p.renderedWidth
            docListeners := true }) ∧
    (∀ (ra : Option String) (dom : Dom) (st : HandlerState) (x : Rat),
      ¬ (ra = some "left" ∧ dom.prevSibling.isSome) →
      ¬ (ra = some "right" ∧ dom.nextSibling.isSome) →
        RH.handleMouseDown ra dom st x =
          { st with isDragging := true, initialX := x, docListeners := true }) := by
  refine ⟨?_, ?_, ?_⟩
  · intro cfg dom st x h
    simp [P0.handleMouseDown, h]
  · intro cfg dom st x p h
    simp [P0.handleMouseDown, h]
  · intro ra dom st x h1 h2
    simp [RH.handleMouseDown, h1, h2]

/-- C6 (witness): a press on a handle with no direction configured leaves
the part_000 state unchanged. -/
theorem c6_mousedown_witness :
    P0.handleMouseDown ⟨150, 30, 150, none, false⟩ ⟨none, none⟩
      ⟨false, 0, 0, false, false⟩ 5 = ⟨false, 0, 0, false, false⟩ :=
  c6_mousedown_amended.1 ⟨150, 30, 150, none, false⟩ ⟨none, none⟩
    ⟨false, 0, 0, false, false⟩ 5 rfl

/-- C7 (confirmed): when target resolution fails, a pointer move changes
nothing and writes nothing, in both variants; the handlers are total, and
every sibling dereference sits behind the same null checks as the source,
so no null access can occur on this path. -/
theorem c7_move_noop :
    (∀ (cfg : P0.Config) (iw : Rat) (dom : Dom) (st : HandlerState) (x : Rat),
      P0.getTargetElement cfg dom = none →
        P0.handleMouseMove cfg iw dom st x = ⟨st, dom, none⟩) ∧
    (∀ (cfg : RH.RHConfig) (ra : Option String) (iw : Rat) (dom : Dom)
        (st : HandlerState) (x : Rat),
      ¬ (ra = some "left" ∧ dom.prevSibling.isSome) →
      ¬ (ra = some "right" ∧ dom.nextSibling.isSome) →
        RH.handleMouseMove cfg ra iw dom st x = ⟨st, dom, none⟩) := by
  refine ⟨?_, ?_⟩
  · intro cfg iw dom st x h
    by_cases hd : st.isDragging = false <;> simp [P0.handleMouseMove, hd, h]
  · intro cfg ra iw dom st x h1 h2
    by_cases hd : st.isDragging = false <;>
      simp [RH.handleMouseMove, hd, h1, h2]

/-- C7 (witness): a move during an active drag after the configured
direction stopped resolving a target changes nothing. -/
theorem c7_move_noop_witness :
    P0.handleMouseMove ⟨150, 30, 150, none, false⟩ 1000 ⟨none, none⟩
      ⟨true, 0, 200, false, true⟩ 7 =
      ⟨⟨true, 0, 200, false, true⟩, ⟨none, none⟩, none⟩ :=
  c7_move_noop.1 ⟨150, 30, 150, none, false⟩ 1000 ⟨none, none⟩
    ⟨true, 0, 200, false, true⟩ 7 rfl

/-- C8 (confirmed): a pointer up with no drag in progress (dragging flag
clear, document listeners not attached) leaves the handler state exactly
as it was, and the handler is idempotent on every state. -/
theorem c8_mouseup_idempotent :
    (∀ st : HandlerState, st.isDragging = false → st.docListeners = false →
      P0.handleMouseUp st = st) ∧
    (∀ st : HandlerState,
      P0.handleMouseUp (P0.handleMouseUp st) = P0.handleMouseUp st) := by
  refine ⟨?_, fun st => rfl⟩
  intro st h1 h2
  cases st
  subst h1
  subst h2
  rfl

/-- C8 (witness): pointer up on a concrete idle state returns it
unchanged. -/
theorem c8_mouseup_witness :
    P0.handleMouseUp ⟨false, 3, 4, true, false⟩ = ⟨false, 3, 4, true, false⟩ :=
  c8_mouseup_idempotent.1 ⟨false, 3, 4, true, false⟩ rfl rfl

/-- C9 (counterexample): the attribute value 0 parses successfully to the
integer 0, yet the configured minWidth becomes the default 150 rather than
the parsed value, because the falsy-coalescing idiom treats 0 like a parse
failure. -/
theorem c9_parse_cex :
    parseIntJS "0" = some 0 ∧
    (P0.initFromAttributes ⟨some "0", none, none, none, false⟩).minWidth = 150 ∧
    ((150 : Rat) ≠ (0 : Rat)) := by
  decide

/-- C9 (amended): each numeric attribute is parsed as an integer and the
default (150, 30, and the resolved minWidth respectively) is substituted
both when parsing fails and when the parsed integer is 0; every parsed
nonzero integer is used as the configuration value. -/
theorem c9_parse_amended :
    (∀ (a : P0.Attrs) (s : String) (n : Int),
      a.minWidthAttr = some s → parseIntJS s = some n → n ≠ 0 →
        (P0.initFromAttributes a).minWidth = (n : Rat)) ∧
    (∀ (a : P0.Attrs) (s : String),
      a.minWidthAttr = some s →
      (parseIntJS s = none ∨ parseIntJS s = some 0) →
        (P0.initFromAttributes a).minWidth = 150) ∧
    (∀ (a : P0.Attrs) (s : String) (n : Int),
      a.maxWidthPercentAttr = some s → parseIntJS s = some n → n ≠ 0 →
        (P0.initFromAttributes a).maxWidthPercent = (n : Rat)) ∧
    (∀ (a : P0.Attrs) (s : String),
      a.maxWidthPercentAttr = some s →
      (parseIntJS s = none ∨ parseIntJS s = some 0) →
        (P0.initFromAttributes a).maxWidthPercent = 30) ∧
    (∀ (a : P0.Attrs) (s : String) (n : Int),
      a.initialWidthAttr = some s → parseIntJS s = some n → n ≠ 0 →
        (P0.initFromAttributes a).defaultWidth = (n : Rat)) ∧
    (∀ (a : P0.Attrs) (s : String),
      a.initialWidthAttr = some s →
      (parseIntJS s = none ∨ parseIntJS s = some 0) →
        (P0.initFromAttributes a).defaultWidth =
          (P0.initFromAttributes a).minWidth) := by
  refine ⟨?_, ?_, ?_, ?_, ?_, ?_⟩ <;> intro a s
  · intro n ha hp hn
    simp [P0.initFromAttributes, ha, hp, P0.jsOrRat, hn]
  · intro ha hp
    rcases hp with hp | hp <;> simp [P0.initFromAttributes, ha, hp, P0.jsOrRat]
  · intro n ha hp hn
    simp [P0.initFromAttributes, ha, hp, P0.jsOrRat, hn]
  · intro ha hp
    rcases hp with hp | hp <;> simp [P0.initFromAttributes, ha, hp, P0.jsOrRat]
  · intro n ha hp hn
    simp [P0.initFromAttributes, ha, hp, P0.jsOrRat, hn]
  · intro ha hp
    rcases hp with hp | hp <;> simp [P0.initFromAttributes, ha, hp, P0.jsOrRat]

/-- C9 (witness): the attribute value 200 parses to 200, is nonzero, and
becomes the configured minWidth. -/
theorem c9_parse_witness :
    (P0.initFromAttributes ⟨some "200", none, none, none, false⟩).minWidth =
      ((200 : Int) : Rat) :=
  c9_parse_amended.1 ⟨some "200", none, none, none, false⟩ "200" 200
    rfl (by decide) (by decide)

/-- C10 (counterexample): removal of the collapsable attribute invokes
attributeChangedCallback of the live-reactive variant with a null new
value; the callback dereferences it with toLowerCase and throws a
TypeError that propagates, contradicting the claim that every failure is
absorbed locally. -/
theorem c10_attr_throw_cex :
    RH.attributeChangedCallback ⟨150, 30, 150, false⟩ "collapsable" none =
      Except.error
        "TypeError: Cannot read properties of null (reading toLowerCase)" ∧
    RH.exceptOk
      (RH.attributeChangedCallback ⟨150, 30, 150, false⟩ "collapsable" none) =
        false := by
  refine ⟨rfl, by decide⟩

/-- C10 (amended): attributeChangedCallback returns normally for every
observed attribute change, addition, or removal, except the single case of
the collapsable attribute with a null new value (its removal), where the
null dereference throws. -/
theorem c10_attr_amended :
    ∀ (cfg : RH.RHConfig) (nm : String) (v : Option String),
      ¬ (nm = "collapsable" ∧ v = none) →
        RH.exceptOk (RH.attributeChangedCallback cfg nm v) = true := by
  intro cfg nm v h
  by_cases h1 : nm = "min-width" <;>
    by_cases h2 : nm = "max-width-percent" <;>
      by_cases h3 : nm = "default-width" <;>
        by_cases h4 : nm = "collapsable" <;>
          cases v <;>
            simp_all [RH.attributeChangedCallback, RH.exceptOk]

/-- C10 (witness): removal of the min-width attribute (null new value) is
absorbed and returns normally. -/
theorem c10_attr_witness :
    RH.exceptOk
      (RH.attributeChangedCallback ⟨150, 30, 150, false⟩ "min-width" none) =
        true :=
  c10_attr_amended ⟨150, 30, 150, false⟩ "min-width" none (by decide)
